import Mathlib

/-!
Verification of the farstack static asset gateway (`src/main.py`).

The program is a small FastAPI application: it resolves three filesystem
paths at module load (static root, assets directory, index file), checks
them in a lifespan startup hook, serves `static/index.html` on `GET /`,
mounts the assets directory under `/assets` via the framework's static
file server, and installs CORS and gzip middleware.

The embedding below models the filesystem as a finite association list
from path strings to file states, HTTP responses as a small sum type, and
logging as an explicit list of (level, message) entries returned by each
operation.
-/

namespace Farstack

/-- State of a filesystem entry: a regular file with byte contents, a
directory, or an entry that exists but whose read fails with an OS error
(used to model unexpected read failures). -/
inductive FileState where
  | file (bytes : List Nat)
  | dir
  | unreadable (errMsg : String)
deriving DecidableEq, Repr

/-- A filesystem: a finite association list from path strings to entry
states. A path absent from the list does not exist. -/
structure FileSystem where
  entries : List (String × FileState)
deriving DecidableEq, Repr

/-- Look up the state of a path. -/
def FileSystem.lookup (fs : FileSystem) (p : String) : Option FileState :=
  (fs.entries.find? (fun e => e.1 == p)).map Prod.snd

/-- `Path.exists()` of the Python code: the path has an entry. -/
def FileSystem.pathExists (fs : FileSystem) (p : String) : Bool :=
  (fs.lookup p).isSome

/-- `STATIC_DIR = BASE_DIR / "static"` (main.py line 22), as a
BASE_DIR-relative string. -/
def STATIC_DIR : String := "static"

/-- `ASSETS_DIR = STATIC_DIR / "assets"` (main.py line 23). -/
def ASSETS_DIR : String := "static/assets"

/-- `INDEX_PATH = STATIC_DIR / "index.html"` (main.py line 24). -/
def INDEX_PATH : String := "static/index.html"

/-- Severity levels used by the logger in main.py. -/
inductive LogLevel where
  | info
  | error
  | critical
deriving DecidableEq, Repr

/-- One emitted log record. -/
structure LogEntry where
  level : LogLevel
  msg : String
deriving DecidableEq, Repr

/-- `required_paths = [STATIC_DIR, ASSETS_DIR, INDEX_PATH]`
(main.py line 28). -/
def required_paths : List String := [STATIC_DIR, ASSETS_DIR, INDEX_PATH]

/-- The `for path in required_paths` loop of `verify_paths`
(main.py lines 29-33): at the first path that does not exist, log an
error naming that path and return False; if the list is exhausted,
return True. The second component collects the log records emitted. -/
def verifyPathsLoop (fs : FileSystem) : List String → Bool × List LogEntry
  | [] => (true, [])
  | p :: rest =>
    if fs.pathExists p then
      verifyPathsLoop fs rest
    else
      (false, [⟨LogLevel.error, "Required path does not exist: " ++ p⟩])

/-- `verify_paths()` (main.py lines 26-33). -/
def verify_paths (fs : FileSystem) : Bool × List LogEntry :=
  verifyPathsLoop fs required_paths

/-- The startup phase of the `lifespan` context manager
(main.py lines 35-44), up to the `yield`: log the startup info message
(which interpolates `os.cpu_count()`, passed here as `cpuCount`), run
`verify_paths`, and on failure log a critical message and raise
`RuntimeError("Application cannot start: missing required paths")`.
`Except.ok ()` means the hook reached `yield` and the application runs. -/
def lifespan (fs : FileSystem) (cpuCount : Nat) :
    Except String Unit × List LogEntry :=
  let startLog : LogEntry :=
    ⟨LogLevel.info, "Starting up application... " ++ toString cpuCount⟩
  let r := verify_paths fs
  if r.1 then
    (Except.ok (), startLog :: r.2)
  else
    (Except.error "Application cannot start: missing required paths",
      startLog :: (r.2 ++ [⟨LogLevel.critical, "Required paths are missing!"⟩]))

/-- A Python exception relevant to `read_index`: either a FastAPI
`HTTPException(status_code, detail)` — which subclasses `Exception` —
or an OS-level error carrying `str(e)`. -/
inductive Exc where
  | httpException (statusCode : Nat) (detail : String)
  | osError (msg : String)
deriving DecidableEq, Repr

/-- `str(e)` for the exceptions above; FastAPI's `HTTPException.__str__`
renders as `"{status_code}: {detail}"` (interpolating the two fields). -/
def Exc.str : Exc → String
  | .httpException s d => toString s ++ ": " ++ d
  | .osError m => m

/-- An HTTP response as observed by the client: either a 200 file
response with a content type and body bytes, or an error response with a
status code and a detail message as body. -/
inductive HttpResult where
  | fileOk (contentType : String) (body : List Nat)
  | httpError (status : Nat) (detail : String)
deriving DecidableEq, Repr

/-- The HTTP status code of a response. -/
def HttpResult.status : HttpResult → Nat
  | .fileOk _ _ => 200
  | .httpError s _ => s

/-- The `try` block of `read_index` (main.py lines 86-95):
if `INDEX_PATH` does not exist, raise `HTTPException(404, "Index file
not found")`; otherwise return `FileResponse(INDEX_PATH,
media_type="text/html")`, whose body is the file's bytes. Reading an
unreadable entry raises the corresponding OS error; an entry that is a
directory raises `IsADirectoryError`. `Except.error` is a raised
exception. -/
def readIndexTry (fs : FileSystem) : Except Exc HttpResult :=
  if ¬ fs.pathExists INDEX_PATH then
    Except.error (Exc.httpException 404 "Index file not found")
  else
    match fs.lookup INDEX_PATH with
    | some (FileState.file bytes) =>
        Except.ok (HttpResult.fileOk "text/html" bytes)
    | some (FileState.unreadable m) => Except.error (Exc.osError m)
    | some FileState.dir => Except.error (Exc.osError "IsADirectoryError")
    | none => Except.error (Exc.httpException 404 "Index file not found")

/-- `read_index` (main.py lines 83-101). The `except Exception as e`
clause catches EVERY exception raised in the `try` block — including the
`HTTPException(404)` raised there, since `HTTPException` subclasses
`Exception` — logs `f"Error serving index.html: {str(e)}"`, and raises
`HTTPException(500, "Internal server error")`, which the framework turns
into a 500 response whose body carries that detail. -/
def read_index (fs : FileSystem) : HttpResult × List LogEntry :=
  match readIndexTry fs with
  | Except.ok r => (r, [])
  | Except.error e =>
      (HttpResult.httpError 500 "Internal server error",
        [⟨LogLevel.error, "Error serving index.html: " ++ e.str⟩])

/-! ### Static file serving under `/assets`

main.py lines 73-81 mount the framework's `StaticFiles(directory=
ASSETS_DIR, check_dir=True, html=True)` under the `/assets` prefix. The
serving logic itself lives in the framework, not in this repository, so
it is modelled from the spec. -/

/-- The tree of files below the assets root, as seen by the static file
server: `files` maps a path (as a list of segments relative to the
assets root) to its byte contents, `dirs` lists the directory paths. -/
structure AssetTree where
  files : List (List String × List Nat)
  dirs : List (List String)
deriving DecidableEq, Repr

/-- The byte contents of the file at path `p` under the assets root, if
one exists. -/
def AssetTree.findFile (t : AssetTree) (p : List String) : Option (List Nat) :=
  (t.files.find? (fun e => e.1 == p)).map Prod.snd

/-- Whether path `p` under the assets root is a directory. -/
def AssetTree.isDir (t : AssetTree) (p : List String) : Bool :=
  t.dirs.contains p

/-- Resolve a request path's segments against the assets root: empty and
`"."` segments are dropped, `".."` pops the previous segment, and a
`".."` with nothing left to pop escapes the assets root, yielding
`none`. `acc` holds the segments resolved so far, in reverse. -/
def resolveSegsAux (acc : List String) : List String → Option (List String)
  | [] => some acc.reverse
  | s :: rest =>
    if s = "" ∨ s = "." then
      resolveSegsAux acc rest
    else if s = ".." then
      match acc with
      | [] => none
      | _ :: acc' => resolveSegsAux acc' rest
    else
      resolveSegsAux (s :: acc) rest

/-- Resolve the `{path}` component of a `GET /assets/{path}` request. -/
def resolveSegs (segs : List String) : Option (List String) :=
  resolveSegsAux [] segs

/-- The extension of a file name: what follows the last dot, or `""`
when the name has no dot. -/
def extOf (nm : String) : String :=
  let parts := nm.splitOn "."
  if parts.length ≤ 1 then "" else parts.getLastD ""

/-- Content type inferred from a file name's extension (the framework
delegates to the platform MIME table; a representative fragment). -/
def mimeFromExt : String → String
  | "html" => "text/html"
  | "js" => "text/javascript"
  | "css" => "text/css"
  | "json" => "application/json"
  | "png" => "image/png"
  | "svg" => "image/svg+xml"
  | _ => "application/octet-stream"

/-- Content type for a file name. -/
def mimeFromName (nm : String) : String :=
  mimeFromExt (extOf nm)

/-- Modelled from the spec: the framework-provided static file server
mounted at `/assets` (its code is not part of this repository). Per the
spec it "resolves `*path` under the assets directory and returns the
file contents with an appropriate content type inferred from extension";
a resolved path with no entry yields HTTP 404; a path escaping the
assets root is rejected with 404; and, with `html=True`, a directory
containing an `index.html` serves that document, otherwise 404. -/
def serveStatic (t : AssetTree) (segs : List String) : HttpResult :=
  match resolveSegs segs with
  | none => HttpResult.httpError 404 "Not Found"
  | some rsegs =>
    match t.findFile rsegs with
    | some b => HttpResult.fileOk (mimeFromName (rsegs.getLastD "")) b
    | none =>
      if t.isDir rsegs then
        match t.findFile (rsegs ++ ["index.html"]) with
        | some b => HttpResult.fileOk "text/html" b
        | none => HttpResult.httpError 404 "Not Found"
      else
        HttpResult.httpError 404 "Not Found"

/-! ### Gzip middleware

main.py line 70: `app.add_middleware(GZipMiddleware, minimum_size=1000)`.
The compression logic lives in the framework; modelled from the spec. -/

/-- `minimum_size=1000` passed to the gzip middleware (main.py line 70). -/
def gzip_minimum_size : Nat := 1000

/-- A response body on the wire: the original body bytes and the
content-encoding applied to them, if any (the DEFLATE byte stream itself
is outside the model; `contentEncoding = some "gzip"` means the body is
sent gzip-compressed). -/
structure WireBody where
  body : List Nat
  contentEncoding : Option String
deriving DecidableEq, Repr

/-- Modelled from the spec: the framework-provided gzip middleware (its
code is not part of this repository). Per the spec, "response bodies at
or above a minimum size threshold (1000 bytes) are compressed using a
standard HTTP compression encoding when the client advertises support";
smaller bodies, and clients not advertising support, get the identity
encoding. -/
def gzipMiddleware (minimumSize : Nat) (clientAcceptsGzip : Bool)
    (b : List Nat) : WireBody :=
  if clientAcceptsGzip ∧ minimumSize ≤ b.length then
    { body := b, contentEncoding := some "gzip" }
  else
    { body := b, contentEncoding := none }

/-! ### CORS middleware

main.py lines 61-67 configure the framework's CORS middleware with
`allow_origins=["http://localhost:8000"]`, `allow_credentials=True`,
`allow_methods=["*"]`, `allow_headers=["*"]`. The header logic lives in
the framework; modelled from the spec. -/

/-- `allow_origins=["http://localhost:8000"]` (main.py line 63). -/
def allow_origins : List String := ["http://localhost:8000"]

/-- `allow_credentials=True` (main.py line 64). -/
def allow_credentials : Bool := true

/-- `allow_methods=["*"]` (main.py line 65): all standard methods. -/
def allow_methods : List String := ["*"]

/-- `allow_headers=["*"]` (main.py line 66): all standard headers. -/
def allow_headers : List String := ["*"]

/-- Modelled from the spec: the CORS response headers added by the
framework middleware (its code is not part of this repository) to a
response, as a function of the request's Origin header. Per the spec,
responses carry "permissive CORS headers restricted to one configured
allowed origin, allowing credentials", and "a request from a
non-configured origin does not receive a matching allow-origin header":
a request from an origin in `allow_origins` receives the allow-origin
header naming it plus the allow-credentials header, any other request
receives no CORS headers. -/
def corsResponseHeaders (requestOrigin : Option String) :
    List (String × String) :=
  match requestOrigin with
  | none => []
  | some o =>
    if allow_origins.contains o then
      ("access-control-allow-origin", o) ::
        (if allow_credentials then
          [("access-control-allow-credentials", "true")]
        else [])
    else []

/-! ### Concrete filesystems used as witnesses -/

/-- A filesystem in which `static/index.html` is absent. -/
def fsNoIndex : FileSystem :=
  ⟨[(STATIC_DIR, FileState.dir), (ASSETS_DIR, FileState.dir)]⟩

/-- A filesystem with all three required paths, the index file holding
the bytes of `"<html>"`. -/
def fsWithIndex : FileSystem :=
  ⟨[(STATIC_DIR, FileState.dir), (ASSETS_DIR, FileState.dir),
    (INDEX_PATH, FileState.file [60, 104, 116, 109, 108, 62])]⟩

/-- A filesystem in which the index file exists but reading it fails
with "Permission denied". -/
def fsUnreadableIndex : FileSystem :=
  ⟨[(STATIC_DIR, FileState.dir), (ASSETS_DIR, FileState.dir),
    (INDEX_PATH, FileState.unreadable "Permission denied")]⟩

/-- A filesystem in which `static/assets` is absent but the other two
required paths exist. -/
def fsMissingAssets : FileSystem :=
  ⟨[(STATIC_DIR, FileState.dir), (INDEX_PATH, FileState.file [104, 105])]⟩

/-- An example asset tree: `app.js` at the root and a `docs` directory
holding an `index.html`. -/
def assetsEx : AssetTree :=
  ⟨[(["app.js"], [97, 112, 112]), (["docs", "index.html"], [104, 105])],
    [[], ["docs"]]⟩

/-! ### Helper lemmas -/

/-- The verify_paths loop returns True exactly when every path in the
list exists, and its log is exactly one error record naming the first
missing path (in list order), or empty when none is missing. -/
theorem verifyPathsLoop_eq (fs : FileSystem) (ps : List String) :
    verifyPathsLoop fs ps =
      (ps.all fs.pathExists,
        match ps.find? (fun p => ! fs.pathExists p) with
        | some p => [⟨LogLevel.error, "Required path does not exist: " ++ p⟩]
        | none => []) := by
  induction ps with
  | nil => rfl
  | cons p rest ih =>
    by_cases h : fs.pathExists p = true
    · simp [verifyPathsLoop, List.find?, h, ih]
    · simp only [Bool.not_eq_true] at h
      simp [verifyPathsLoop, List.find?, h]

/-! ### Claim theorems -/

/-- C10: `verify_paths` checks the three required paths in the fixed
order static root, assets directory, index file; it short-circuits,
returning False at the first missing path and logging only that one
path; it returns True exactly when all three exist. -/
theorem verify_paths_order_shortcircuit (fs : FileSystem) :
    ((verify_paths fs).1 = true ↔
      (fs.pathExists STATIC_DIR = true ∧ fs.pathExists ASSETS_DIR = true ∧
        fs.pathExists INDEX_PATH = true)) ∧
    (verify_paths fs).2 =
      (match required_paths.find? (fun p => ! fs.pathExists p) with
        | some p => [⟨LogLevel.error, "Required path does not exist: " ++ p⟩]
        | none => []) := by
  constructor
  · simp [verify_paths, verifyPathsLoop_eq, required_paths]
  · simp [verify_paths, verifyPathsLoop_eq]

/-- C2: the lifespan startup hook yields (so the application starts
serving) exactly when all three required paths exist; when any one is
absent it raises instead of yielding, so no listener is created. -/
theorem startup_ok_iff_paths_exist (fs : FileSystem) (cpuCount : Nat) :
    ((lifespan fs cpuCount).1 = Except.ok ()) ↔
      (fs.pathExists STATIC_DIR = true ∧ fs.pathExists ASSETS_DIR = true ∧
        fs.pathExists INDEX_PATH = true) := by
  have hall : (verify_paths fs).1 = true ↔
      (fs.pathExists STATIC_DIR = true ∧ fs.pathExists ASSETS_DIR = true ∧
        fs.pathExists INDEX_PATH = true) := by
    simp [verify_paths, verifyPathsLoop_eq, required_paths]
  by_cases hv : (verify_paths fs).1 = true
  · simp [lifespan, hv, hall.mp hv]
  · have hrhs := fun h => hv (hall.mpr h)
    simp only [Bool.not_eq_true] at hv
    simp [lifespan, hv]
    intro h1 h2
    cases hI : fs.pathExists INDEX_PATH with
    | false => rfl
    | true => exact absurd ⟨h1, h2, hI⟩ hrhs

/-- C7: when the startup check fails, the verify_paths loop logs an
error record naming the specific missing path, and the lifespan hook
logs the startup configuration error at critical severity; both records
are in the startup log. -/
theorem startup_failure_logs (fs : FileSystem) (cpuCount : Nat) (p : String)
    (h : required_paths.find? (fun q => ! fs.pathExists q) = some p) :
    (⟨LogLevel.error, "Required path does not exist: " ++ p⟩ : LogEntry) ∈
        (lifespan fs cpuCount).2 ∧
    (⟨LogLevel.critical, "Required paths are missing!"⟩ : LogEntry) ∈
        (lifespan fs cpuCount).2 := by
  have hp : fs.pathExists p = false := by
    have := List.find?_some h
    simpa using this
  have hmem : p ∈ required_paths := List.mem_of_find?_eq_some h
  have hfail : (verify_paths fs).1 = false := by
    simp only [verify_paths, verifyPathsLoop_eq]
    rw [Bool.eq_false_iff]
    intro hall
    rw [List.all_eq_true] at hall
    have hcontra := hall p hmem
    simp [hp] at hcontra
  have hlogs : (verify_paths fs).2 =
      [⟨LogLevel.error, "Required path does not exist: " ++ p⟩] := by
    simp [verify_paths, verifyPathsLoop_eq, h]
  simp [lifespan, hfail, hlogs]

/-- C7 witness: with `static/assets` absent (and the other two paths
present), the startup log contains the error record naming
`static/assets` and the critical record. -/
theorem startup_failure_logs_witness :
    (required_paths.find? (fun q => ! fsMissingAssets.pathExists q) =
        some ASSETS_DIR) ∧
    ((⟨LogLevel.error, "Required path does not exist: " ++ ASSETS_DIR⟩ :
        LogEntry) ∈ (lifespan fsMissingAssets 4).2 ∧
      (⟨LogLevel.critical, "Required paths are missing!"⟩ : LogEntry) ∈
        (lifespan fsMissingAssets 4).2) :=
  ⟨by decide, startup_failure_logs fsMissingAssets 4 ASSETS_DIR (by decide)⟩

/-- C1 (code bug): with the index document absent, `read_index` responds
with HTTP 500, not 404. The handler raises `HTTPException(404, "Index
file not found")` inside its own `try` block, but `HTTPException`
subclasses `Exception`, so the handler's `except Exception` clause
catches it, logs it, and replaces it with `HTTPException(500, "Internal
server error")`; the 404 never reaches the client. -/
theorem read_index_absent_gives_500 :
    read_index fsNoIndex =
      (HttpResult.httpError 500 "Internal server error",
        [⟨LogLevel.error,
          "Error serving index.html: 404: Index file not found"⟩]) ∧
    (read_index fsNoIndex).1.status = 500 := by
  constructor
  · decide
  · decide

/-- C3: with the index document present as a readable file, `read_index`
returns HTTP 200 with content type text/html and a body equal to the
exact bytes of the index document, emitting no error log. -/
theorem read_index_present_serves_bytes (fs : FileSystem) (bytes : List Nat)
    (h : fs.lookup INDEX_PATH = some (FileState.file bytes)) :
    read_index fs = (HttpResult.fileOk "text/html" bytes, []) := by
  have hex : fs.pathExists INDEX_PATH = true := by
    simp [FileSystem.pathExists, h]
  simp [read_index, readIndexTry, hex, h]

/-- C3 witness: a concrete filesystem whose index document holds the
bytes of `"<html>"`. -/
theorem read_index_present_serves_bytes_witness :
    read_index fsWithIndex =
      (HttpResult.fileOk "text/html" [60, 104, 116, 109, 108, 62], []) :=
  read_index_present_serves_bytes fsWithIndex
    [60, 104, 116, 109, 108, 62] (by decide)

/-- C4: when reading the index document fails for a reason other than
absence (here: an OS error with message `m`), `read_index` responds with
HTTP 500 and the fixed generic body "Internal server error" — which does
not depend on `m`, so no failure detail reaches the client — while the
underlying detail `m` is logged server-side at error severity. -/
theorem read_index_failure_generic_500 (fs : FileSystem) (m : String)
    (h : fs.lookup INDEX_PATH = some (FileState.unreadable m)) :
    read_index fs =
      (HttpResult.httpError 500 "Internal server error",
        [⟨LogLevel.error, "Error serving index.html: " ++ m⟩]) := by
  have hex : fs.pathExists INDEX_PATH = true := by
    simp [FileSystem.pathExists, h]
  simp [read_index, readIndexTry, hex, h, Exc.str]

/-- C4 witness: a concrete filesystem whose index document read fails
with "Permission denied". -/
theorem read_index_failure_generic_500_witness :
    read_index fsUnreadableIndex =
      (HttpResult.httpError 500 "Internal server error",
        [⟨LogLevel.error,
          "Error serving index.html: Permission denied"⟩]) :=
  read_index_failure_generic_500 fsUnreadableIndex "Permission denied"
    (by decide)

/-- C5: a `GET /assets/{path}` request whose path escapes the assets
root (resolution yields `none`) is answered with HTTP 404 — in
particular a status in {403, 404} — and no file contents are returned,
so nothing outside the assets root is ever served. -/
theorem assets_traversal_rejected (t : AssetTree) (segs : List String)
    (h : resolveSegs segs = none) :
    serveStatic t segs = HttpResult.httpError 404 "Not Found" ∧
    ((serveStatic t segs).status = 403 ∨ (serveStatic t segs).status = 404) ∧
    (∀ ct b, serveStatic t segs ≠ HttpResult.fileOk ct b) := by
  refine ⟨?_, ?_, ?_⟩
  · simp [serveStatic, h]
  · right
    simp [serveStatic, h, HttpResult.status]
  · intro ct b
    simp [serveStatic, h]

/-- C5 witness: the crafted path `/assets/../secret.txt` escapes the
assets root and is rejected with 404 against the example tree. -/
theorem assets_traversal_rejected_witness :
    serveStatic assetsEx ["..", "secret.txt"] =
      HttpResult.httpError 404 "Not Found" :=
  (assets_traversal_rejected assetsEx ["..", "secret.txt"] (by decide)).1

/-- C6: for a `GET /assets/{path}` request whose path resolves (inside
the assets root) to `rsegs`: an existing file is served with HTTP 200,
its bytes, and the content type inferred from its extension; a path with
no entry yields HTTP 404; a directory containing an `index.html` serves
that document as text/html; a directory without one yields HTTP 404. -/
theorem assets_resolution_contract (t : AssetTree) (segs rsegs : List String)
    (h : resolveSegs segs = some rsegs) :
    (∀ b, t.findFile rsegs = some b →
      serveStatic t segs =
        HttpResult.fileOk (mimeFromName (rsegs.getLastD "")) b) ∧
    (t.findFile rsegs = none → t.isDir rsegs = false →
      serveStatic t segs = HttpResult.httpError 404 "Not Found") ∧
    (∀ b, t.findFile rsegs = none → t.isDir rsegs = true →
      t.findFile (rsegs ++ ["index.html"]) = some b →
      serveStatic t segs = HttpResult.fileOk "text/html" b) ∧
    (t.findFile rsegs = none → t.isDir rsegs = true →
      t.findFile (rsegs ++ ["index.html"]) = none →
      serveStatic t segs = HttpResult.httpError 404 "Not Found") := by
  refine ⟨?_, ?_, ?_, ?_⟩
  · intro b hb
    simp [serveStatic, h, hb]
  · intro hn hd
    simp [serveStatic, h, hn, hd]
  · intro b hn hd hidx
    simp [serveStatic, h, hn, hd, hidx]
  · intro hn hd hidx
    simp [serveStatic, h, hn, hd, hidx]

/-- C6 witness: `GET /assets/app.js` against the example tree serves the
file's bytes with the content type inferred from the `.js` extension. -/
theorem assets_resolution_contract_witness :
    serveStatic assetsEx ["app.js"] =
      HttpResult.fileOk (mimeFromName (["app.js"].getLastD ""))
        [97, 112, 112] :=
  (assets_resolution_contract assetsEx ["app.js"] ["app.js"]
    (by decide)).1 [97, 112, 112] (by decide)

/-- C8: with the configured threshold `minimum_size=1000`, a response
body is sent gzip-compressed exactly when the client advertises gzip
support and the body is at least 1000 bytes; in particular a body under
1000 bytes is never compressed. The body bytes themselves are the
original ones in either case. -/
theorem gzip_compression_threshold (clientAcceptsGzip : Bool)
    (b : List Nat) :
    (gzipMiddleware gzip_minimum_size clientAcceptsGzip b).contentEncoding =
      (if clientAcceptsGzip = true ∧ 1000 ≤ b.length then some "gzip"
        else none) ∧
    (gzipMiddleware gzip_minimum_size clientAcceptsGzip b).body = b := by
  constructor
  · by_cases hc : clientAcceptsGzip = true ∧ 1000 ≤ b.length <;>
      simp [gzipMiddleware, gzip_minimum_size, hc]
  · by_cases hc : clientAcceptsGzip = true ∧ 1000 ≤ b.length <;>
      simp [gzipMiddleware, gzip_minimum_size, hc]

/-- C9 counterexample: the claim says every response includes an
allow-origin header naming the configured origin, but a response to a
request from the non-configured origin `http://evil.example` carries no
CORS headers at all — in particular no allow-origin header naming
`http://localhost:8000`. -/
theorem cors_not_every_response :
    corsResponseHeaders (some "http://evil.example") = [] ∧
    ¬ ("access-control-allow-origin", "http://localhost:8000") ∈
        corsResponseHeaders (some "http://evil.example") := by
  constructor
  · decide
  · decide

/-- C9 (amended): a response to a request from the single configured
allowed origin includes the allow-origin header naming that origin and
the allow-credentials header; a request from any other origin (or with
no Origin header) receives no matching allow-origin header; the
middleware is configured to permit all methods and all headers. -/
theorem cors_policy_amended (o : String) :
    corsResponseHeaders (some o) =
      (if o ∈ allow_origins then
        [("access-control-allow-origin", o),
          ("access-control-allow-credentials", "true")]
      else []) ∧
    corsResponseHeaders none = [] ∧
    allow_origins = ["http://localhost:8000"] ∧
    allow_methods = ["*"] ∧ allow_headers = ["*"] := by
  refine ⟨?_, rfl, rfl, rfl, rfl⟩
  by_cases h : o ∈ allow_origins <;>
    simp [corsResponseHeaders, allow_credentials, h]

end Farstack
